import Mathlib

/-!
Verification development for the WindmillFan integration.

The embedded code is the device-communication core of the repository:
`custom_components/windmillfan/blynk_service.py` (pin client and device
adapter), `custom_components/windmillfan/const.py` (tables and constants),
`custom_components/windmillfan/coordinator.py` (refresh coordinator) and
`custom_components/windmillfan/entity.py` (availability of the entity).
Python functions become Lean functions; the HTTP transport is abstracted
as a sequence of attempt outcomes (one per loop iteration); `json.loads`
is abstracted as a parameter returning an optional JSON value.
-/

namespace WindmillFan

/-! ### Constants from `const.py` -/

def MAX_RETRIES : Nat := 3

def UPDATE_INTERVAL : Nat := 60

/-- FAN_SPEED_MAPPING from `const.py`: level name to pin code. -/
def FAN_SPEED_MAPPING : List (String × String) :=
  [("Whisper", "1"), ("Low", "2"), ("Medium", "3"), ("High", "4"), ("Boost", "5")]

/-- FAN_SPEED_REVERSE_MAPPING from `const.py`: the comprehension
swapping each (name, code) pair of FAN_SPEED_MAPPING into (code, name). -/
def FAN_SPEED_REVERSE_MAPPING : List (String × String) :=
  FAN_SPEED_MAPPING.map (fun p => (p.2, p.1))

/-- POWER_MAPPING from `const.py` together with the `.get(value, 0)`
access in `async_set_power`: False maps to 0, True maps to 1. -/
def POWER_MAPPING (b : Bool) : Int := if b then 1 else 0

def PIN_POWER : String := "V0"

def PIN_FAN_SPEED : String := "V2"

def DEFAULT_FAN_SPEED : String := "Medium"

/-! ### Pin values

`async_get_pin_value` returns a Python value that is an `int`, a `str`,
or, through the legacy JSON branch, the first element of a parsed JSON
array.  The JSON values the remote encodings use are integers, strings,
`null` and (nested) arrays; this grammar is the `Json` type.  Over this
grammar Python equality `==` coincides with structural equality. -/

inductive Json where
  | num (n : Int)
  | str (s : String)
  | null
  | arr (elems : List Json)

mutual

/-- Python `==` on the modelled values: structural on this grammar
(no booleans or floats are modelled, so no cross-type numeric equality
arises). -/
def pyEq : Json → Json → Bool
  | .num a, .num b => a == b
  | .str a, .str b => a == b
  | .null, .null => true
  | .arr a, .arr b => pyEqList a b
  | _, _ => false

def pyEqList : List Json → List Json → Bool
  | [], [] => true
  | x :: xs, y :: ys => pyEq x y && pyEqList xs ys
  | _, _ => false

end

mutual

/-- Python `repr` on the modelled values: integers print bare, strings
print between single quotes (character 39), `None` prints as None,
lists print bracketed with ", " separators (as `repr` does). -/
def pyRepr : Json → String
  | .num n => toString n
  | .str s => String.singleton (Char.ofNat 39) ++ s ++ String.singleton (Char.ofNat 39)
  | .null => "None"
  | .arr l => "[" ++ pyReprList l ++ "]"

def pyReprList : List Json → String
  | [] => ""
  | [x] => pyRepr x
  | x :: y :: xs => pyRepr x ++ ", " ++ pyReprList (y :: xs)

end

/-- Python `str` on the modelled values: a string is returned unchanged,
everything else prints as its `repr`. -/
def pyStr : Json → String
  | .str s => s
  | v => pyRepr v

/-- Python `str.strip()` with no argument: removes leading and trailing
whitespace. -/
def pyStrip (s : String) : String :=
  String.mk (((s.data.dropWhile Char.isWhitespace).reverse.dropWhile
    Char.isWhitespace).reverse)

/-- Python `str.isdigit` restricted to ASCII text: nonempty and every
character a decimal digit. -/
def pyIsDigit (s : String) : Bool := !s.data.isEmpty && s.data.all Char.isDigit

/-- Python `str.isalpha` restricted to ASCII text: nonempty and every
character a letter. -/
def pyIsAlpha (s : String) : Bool := !s.data.isEmpty && s.data.all Char.isAlpha

/-- Python `int(s)` on a string of decimal digits. -/
def digitsToNat (s : String) : Nat :=
  s.data.foldl (fun acc c => acc * 10 + (c.toNat - 48)) 0

/-! ### Response parsing (`async_get_pin_value`, lines 92-106)

The text handed to the parser has already been stripped by
`_make_request_with_retry` (it returns `text.strip()`).  `json.loads`
is abstracted as `jp : String → Option Json`: `none` is a
`JSONDecodeError`, `some v` a successful parse yielding `v`. -/

/-- Parse dispatch of `async_get_pin_value` on the (already stripped)
response text: all digits parses as an integer; purely alphabetic is
returned as the string itself; otherwise the text is tried as a JSON
array and the first element is returned when the parse yields a
non-empty list; in every other case (parse failure, non-list result,
empty list) the text is returned unchanged. -/
def parsePinText (jp : String → Option Json) (t : String) : Json :=
  if pyIsDigit t then .num (digitsToNat t)
  else if pyIsAlpha t then .str t
  else
    match jp t with
    | some (.arr (x :: _)) => x
    | some _ => .str t
    | none => .str t

/-- Decode of a raw response text R as performed by the pin client get
path: `_make_request_with_retry` strips R, `async_get_pin_value` parses
the stripped text. -/
def decodePinResponse (jp : String → Option Json) (raw : String) : Json :=
  parsePinText jp (pyStrip raw)


/-! ### The retry loop (`_make_request_with_retry`, lines 53-80)

The HTTP transport is abstracted as a map from the attempt index to the
outcome of that attempt: either an `aiohttp.ClientError` (connection
error or timeout) carrying its message, or an HTTP response with status
and body text. -/

inductive AttemptResult where
  | transportFailure (msg : String)
  | httpResponse (status : Nat) (body : String)

/-- BlynkServiceError, with one constructor per `raise` site of
`blynk_service.py`; the dynamic parts of each message are the fields. -/
inductive BlynkError where
  | invalidAuth
  | badRequest
  | httpStatus (status : Nat) (body : String)
  | requestFailed (retries : Nat) (msg : String)
  | maxRetriesExceeded
  | powerFailed (inner : String)
  | fanFailed (inner : String)

/-- Message string of each raise site, as formatted in the source. -/
def BlynkError.message : BlynkError → String
  | .invalidAuth => "Invalid authentication token"
  | .badRequest => "Bad request - check device token and pin"
  | .httpStatus status body => "HTTP " ++ toString status ++ ": " ++ body
  | .requestFailed retries msg =>
      "Request failed after " ++ toString retries ++ " attempts: " ++ msg
  | .maxRetriesExceeded => "Max retries exceeded"
  | .powerFailed inner => "Failed to get power state: " ++ inner
  | .fanFailed inner => "Failed to get fan speed: " ++ inner

/-- Observable run of the retry loop: the final result, the number of
loop iterations that executed (attempts made), and the list of sleep
durations (seconds) performed between attempts. -/
structure RunResult where
  result : Except BlynkError String
  attempts : Nat
  sleeps : List Nat

/-- Loop body of `_make_request_with_retry`: `attempt` is the loop
index, `remaining` the number of iterations `range(retries)` still has
(the caller keeps `attempt + remaining = retries`).  A 200 response
returns the stripped body; 401 and 400 raise their classified errors
(not caught by the `except aiohttp.ClientError` clause, so they escape
immediately); any other status raises an error carrying status and
body; a transport failure on the last attempt raises the
retry-exhausted error, and otherwise sleeps 1 second and continues.
When the loop ends without returning, the fall-through raise reports
that retries were exceeded. -/
def retryGo (responses : Nat → AttemptResult) (retries : Nat) :
    Nat → Nat → RunResult
  | _, 0 => ⟨.error .maxRetriesExceeded, 0, []⟩
  | attempt, remaining + 1 =>
      match responses attempt with
      | .httpResponse status body =>
          if status = 200 then ⟨.ok (pyStrip body), 1, []⟩
          else if status = 401 then ⟨.error .invalidAuth, 1, []⟩
          else if status = 400 then ⟨.error .badRequest, 1, []⟩
          else ⟨.error (.httpStatus status body), 1, []⟩
      | .transportFailure msg =>
          if attempt = retries - 1 then
            ⟨.error (.requestFailed retries msg), 1, []⟩
          else
            let rest := retryGo responses retries (attempt + 1) remaining
            ⟨rest.result, rest.attempts + 1, 1 :: rest.sleeps⟩

/-- `_make_request_with_retry(url, retries)`: run the loop from
attempt 0 with `retries` iterations available. -/
def makeRequestWithRetry (responses : Nat → AttemptResult)
    (retries : Nat := MAX_RETRIES) : RunResult :=
  retryGo responses retries 0 retries

/-- `async_get_pin_value`: request with retry, then parse the response
text.  A `BlynkServiceError` raised below is re-raised unchanged
(`except BlynkServiceError: raise`). -/
def asyncGetPinValue (jp : String → Option Json)
    (responses : Nat → AttemptResult) (retries : Nat := MAX_RETRIES) :
    Except BlynkError Json :=
  match (makeRequestWithRetry responses retries).result with
  | .ok text => .ok (parsePinText jp text)
  | .error e => .error e

/-! ### Device adapter (`async_get_power`, `async_get_fan`,
`async_set_fan`, `async_set_power`) -/

/-- Truthiness decode of `async_get_power`, line 150:
`bool(pin_value == 1 or pin_value == "1")`. -/
def powerOfPin (v : Json) : Bool :=
  pyEq v (.num 1) || pyEq v (.str "1")

/-- Speed decode of `async_get_fan`, lines 159-161: stringify the pin
value and look it up in FAN_SPEED_REVERSE_MAPPING, defaulting to
"Medium". -/
def fanOfPin (v : Json) : String :=
  (FAN_SPEED_REVERSE_MAPPING.lookup (pyStr v)).getD "Medium"

/-- Pin code sent by `async_set_fan`, line 141:
`FAN_SPEED_MAPPING.get(value, "3")`. -/
def setFanPinValue (value : String) : String :=
  (FAN_SPEED_MAPPING.lookup value).getD "3"

/-- `async_get_power` given the result of its pin read: decode
truthiness on success; on any error re-raise with the
"Failed to get power state" prefix (the bare `except Exception` also
catches a `BlynkServiceError` coming from the pin read). -/
def asyncGetPower (pinRead : Except BlynkError Json) : Except BlynkError Bool :=
  match pinRead with
  | .ok v => .ok (powerOfPin v)
  | .error e => .error (.powerFailed e.message)

/-- `async_get_fan` given the result of its pin read: decode the speed
name on success; on any error re-raise with the
"Failed to get fan speed" prefix. -/
def asyncGetFan (pinRead : Except BlynkError Json) : Except BlynkError String :=
  match pinRead with
  | .ok v => .ok (fanOfPin v)
  | .error e => .error (.fanFailed e.message)


/-! ### Refresh coordinator (`coordinator.py`) and entity availability
(`entity.py`) -/

/-- Device snapshot: the dict `data` built by `_async_update_data`,
lines 35-38. -/
structure Snapshot where
  power : Bool
  fan : String
deriving DecidableEq

/-- UpdateFailed raised by `_async_update_data` with its message. -/
inductive UpdateError where
  | updateFailed (msg : String)
deriving DecidableEq

/-- Fetch step of `WindmillDataUpdateCoordinator._async_update_data`,
given the outcomes of the two adapter reads (`async_get_power` is
awaited first; `async_get_fan` is reached only when it succeeded).  On
success the snapshot combines exactly the two readings; a
`BlynkServiceError` from either read is converted to `UpdateFailed`
with the "Error communicating with Windmill device" prefix. -/
def asyncUpdateData (powerRead : Except BlynkError Bool)
    (fanRead : Except BlynkError String) : Except UpdateError Snapshot :=
  match powerRead with
  | .error e =>
      .error (.updateFailed ("Error communicating with Windmill device: " ++ e.message))
  | .ok p =>
      match fanRead with
      | .error e =>
          .error (.updateFailed ("Error communicating with Windmill device: " ++ e.message))
      | .ok f => .ok ⟨p, f⟩

/-- Coordinator-visible state: the cached snapshot (`self.data`) and
the success flag of the last refresh (`self.last_update_success`). -/
structure CoordinatorState where
  data : Option Snapshot
  lastUpdateSuccess : Bool
deriving DecidableEq

/-- Modelled from the spec: the host platform's DataUpdateCoordinator
refresh step (the class `WindmillDataUpdateCoordinator` inherits from;
its code is not part of this repository).  Per the spec, on completion
the coordinator stores the snapshot on success, or marks the previous
snapshot stale and records the failure on failure, retaining the last
known good snapshot for read purposes. -/
def coordinatorRefresh (st : CoordinatorState)
    (fetch : Except UpdateError Snapshot) : CoordinatorState :=
  match fetch with
  | .ok snap => ⟨some snap, true⟩
  | .error _ => ⟨st.data, false⟩

/-- `WindmillFan.available` (`entity.py` lines 71-74): mirrors the
coordinator's `last_update_success`. -/
def entityAvailable (st : CoordinatorState) : Bool :=
  st.lastUpdateSuccess

/-! ### Refresh coalescing

Modelled from the spec: deduplication of concurrent `request_refresh()`
calls lives in the host platform's DataUpdateCoordinator, whose code is
not part of this repository.  The spec's state machine: in Idle a
request starts a new remote fetch; requests arriving while Refreshing
attach to the in-flight fetch instead of starting a second one; on
completion every attached caller is notified with the same outcome. -/

/-- Events driving the coalescing state machine: a `request_refresh()`
call arriving, or the in-flight remote fetch completing with an
outcome. -/
inductive CoEvent where
  | request
  | complete (outcome : Except UpdateError Snapshot)

/-- Modelled from the spec: observable coalescing state — whether a
remote fetch is in flight, how many callers are attached to it, how
many remote fetches were ever started and completed, and the outcomes
delivered to callers in order. -/
structure CoalesceState where
  inFlight : Bool
  pendingCallers : Nat
  fetchesStarted : Nat
  fetchesCompleted : Nat
  delivered : List (Except UpdateError Snapshot)

def CoalesceState.initial : CoalesceState := ⟨false, 0, 0, 0, []⟩

/-- Modelled from the spec: one transition of the coalescing state
machine. -/
def coalesceStep (st : CoalesceState) : CoEvent → CoalesceState
  | .request =>
      if st.inFlight then { st with pendingCallers := st.pendingCallers + 1 }
      else
        { st with
          inFlight := true
          pendingCallers := 1
          fetchesStarted := st.fetchesStarted + 1 }
  | .complete o =>
      if st.inFlight then
        { st with
          inFlight := false
          pendingCallers := 0
          fetchesCompleted := st.fetchesCompleted + 1
          delivered := st.delivered ++ List.replicate st.pendingCallers o }
      else st

/-- Run the coalescing machine over a sequence of events. -/
def coalesceRun (st : CoalesceState) (es : List CoEvent) : CoalesceState :=
  es.foldl coalesceStep st

/-- Fetches in flight at a state: started but not completed. -/
def CoalesceState.inFlightCount (st : CoalesceState) : Nat :=
  st.fetchesStarted - st.fetchesCompleted

/-! ## Theorems -/

/-- C1: for every raw pin response text R, the pin client's get decodes
the trimmed R as follows: if R is all digits it returns the integer
value of R; otherwise if R is purely alphabetic it returns R as a
string; otherwise it attempts to parse R as a JSON array and returns
the array's first element when the parse yields a non-empty list; in
every other case (parse failure, non-list parse result, empty list) it
returns the trimmed R unchanged. -/
theorem C1_decode_cases (jp : String → Option Json) (R : String) :
    (pyIsDigit (pyStrip R) = true →
      decodePinResponse jp R = .num (digitsToNat (pyStrip R))) ∧
    (pyIsDigit (pyStrip R) = false → pyIsAlpha (pyStrip R) = true →
      decodePinResponse jp R = .str (pyStrip R)) ∧
    (pyIsDigit (pyStrip R) = false → pyIsAlpha (pyStrip R) = false →
      (∀ x xs, jp (pyStrip R) = some (.arr (x :: xs)) →
        decodePinResponse jp R = x) ∧
      (jp (pyStrip R) = none → decodePinResponse jp R = .str (pyStrip R)) ∧
      (∀ v, jp (pyStrip R) = some v → (∀ x xs, v ≠ .arr (x :: xs)) →
        decodePinResponse jp R = .str (pyStrip R))) := by
  refine ⟨fun hd => ?_, fun hd ha => ?_, fun hd ha => ⟨fun x xs hj => ?_, fun hj => ?_, fun v hj hv => ?_⟩⟩
  · simp [decodePinResponse, parsePinText, hd]
  · simp [decodePinResponse, parsePinText, hd, ha]
  · simp [decodePinResponse, parsePinText, hd, ha, hj]
  · simp [decodePinResponse, parsePinText, hd, ha, hj]
  · rcases v with n | s | _ | l
    · simp [decodePinResponse, parsePinText, hd, ha, hj]
    · simp [decodePinResponse, parsePinText, hd, ha, hj]
    · simp [decodePinResponse, parsePinText, hd, ha, hj]
    · rcases l with _ | ⟨x, xs⟩
      · simp [decodePinResponse, parsePinText, hd, ha, hj]
      · exact absurd rfl (hv x xs)

/-- Closed instances of `C1_decode_cases`: one per branch of the decode. -/
theorem C1_decode_cases_witness :
    decodePinResponse (fun _ => none) " 42 " = .num 42 ∧
    decodePinResponse (fun _ => none) " on " = .str "on" ∧
    decodePinResponse (fun _ => some (.arr [.num 7, .num 8])) "[7, 8]" = .num 7 ∧
    decodePinResponse (fun _ => none) "1.5" = .str "1.5" ∧
    decodePinResponse (fun _ => some .null) "null?" = .str "null?" :=
  ⟨(C1_decode_cases (fun _ => none) " 42 ").1 (by decide),
   (C1_decode_cases (fun _ => none) " on ").2.1 (by decide) (by decide),
   ((C1_decode_cases (fun _ => some (.arr [.num 7, .num 8])) "[7, 8]").2.2
     (by decide) (by decide)).1 (.num 7) [.num 8] rfl,
   ((C1_decode_cases (fun _ => none) "1.5").2.2 (by decide) (by decide)).2.1 rfl,
   ((C1_decode_cases (fun _ => some .null) "null?").2.2 (by decide) (by decide)).2.2
     .null rfl (fun x xs h => Json.noConfusion h)⟩

/-- C2: for every decoded pin value v, the power decode returns true if
and only if v is the integer 1 or the string "1"; other decoded values,
in particular "0", "2", "off" and the integer 0, yield false. -/
theorem C2_power_truthiness :
    (∀ v : Json, powerOfPin v = true ↔ (v = .num 1 ∨ v = .str "1")) ∧
    powerOfPin (.str "0") = false ∧
    powerOfPin (.str "2") = false ∧
    powerOfPin (.str "off") = false ∧
    powerOfPin (.num 0) = false := by
  refine ⟨fun v => ?_, rfl, rfl, rfl, rfl⟩
  rcases v with n | s | _ | l <;> simp [powerOfPin, pyEq]

/-- Closed instance of `C2_power_truthiness`. -/
theorem C2_power_truthiness_witness : powerOfPin (.num 1) = true :=
  (C2_power_truthiness.1 (.num 1)).2 (Or.inl rfl)

/-- C7: the speed decode returns the level name of the fixed five-entry
reverse mapping and returns "Medium" for every unrecognized code;
dually, the speed write sends the fixed code of a recognized level name
and sends "3" for every unrecognized level name (both are total
functions, never failing). -/
theorem C7_speed_defaults :
    (∀ v : Json, pyStr v ∉ FAN_SPEED_MAPPING.map Prod.snd → fanOfPin v = "Medium") ∧
    (∀ code name, (code, name) ∈ FAN_SPEED_REVERSE_MAPPING →
      ∀ v : Json, pyStr v = code → fanOfPin v = name) ∧
    FAN_SPEED_REVERSE_MAPPING.length = 5 ∧
    (∀ name, name ∉ FAN_SPEED_MAPPING.map Prod.fst → setFanPinValue name = "3") ∧
    (∀ name code, (name, code) ∈ FAN_SPEED_MAPPING → setFanPinValue name = code) := by
  refine ⟨fun v h => ?_, fun code name h v hv => ?_, rfl, fun name h => ?_, fun name code h => ?_⟩
  · simp only [FAN_SPEED_MAPPING, List.map, List.mem_cons, List.not_mem_nil] at h
    push_neg at h
    obtain ⟨h1, h2, h3, h4, h5, -⟩ := h
    simp [fanOfPin, FAN_SPEED_REVERSE_MAPPING, FAN_SPEED_MAPPING, List.lookup,
      beq_eq_false_iff_ne.mpr h1, beq_eq_false_iff_ne.mpr h2,
      beq_eq_false_iff_ne.mpr h3, beq_eq_false_iff_ne.mpr h4,
      beq_eq_false_iff_ne.mpr h5]
  · simp only [FAN_SPEED_REVERSE_MAPPING, FAN_SPEED_MAPPING, List.map,
      List.mem_cons, List.not_mem_nil, or_false, Prod.mk.injEq] at h
    rcases h with ⟨hc, hn⟩ | ⟨hc, hn⟩ | ⟨hc, hn⟩ | ⟨hc, hn⟩ | ⟨hc, hn⟩ <;>
      subst hc <;> subst hn <;> simp [fanOfPin, hv, FAN_SPEED_REVERSE_MAPPING,
        FAN_SPEED_MAPPING, List.lookup]
  · simp only [FAN_SPEED_MAPPING, List.map, List.mem_cons, List.not_mem_nil] at h
    push_neg at h
    obtain ⟨h1, h2, h3, h4, h5, -⟩ := h
    simp [setFanPinValue, FAN_SPEED_MAPPING, List.lookup,
      beq_eq_false_iff_ne.mpr h1, beq_eq_false_iff_ne.mpr h2,
      beq_eq_false_iff_ne.mpr h3, beq_eq_false_iff_ne.mpr h4,
      beq_eq_false_iff_ne.mpr h5]
  · simp only [FAN_SPEED_MAPPING, List.mem_cons, List.not_mem_nil, or_false,
      Prod.mk.injEq] at h
    rcases h with ⟨hn, hc⟩ | ⟨hn, hc⟩ | ⟨hn, hc⟩ | ⟨hn, hc⟩ | ⟨hn, hc⟩ <;>
      subst hn <;> subst hc <;> rfl

/-- Closed instances of `C7_speed_defaults`: an unrecognized code, a
recognized code, an unrecognized level, a recognized level. -/
theorem C7_speed_defaults_witness :
    fanOfPin (.str "7") = "Medium" ∧ fanOfPin (.num 2) = "Low" ∧
    setFanPinValue "Silent" = "3" ∧ setFanPinValue "High" = "4" :=
  ⟨C7_speed_defaults.1 (.str "7") (by decide),
   C7_speed_defaults.2.1 "2" "Low" (by decide) (.num 2) rfl,
   C7_speed_defaults.2.2.2.1 "Silent" (by decide),
   C7_speed_defaults.2.2.2.2 "High" "4" (by decide)⟩

/-- C9: for every one of the five speed levels L, decoding the pin code
that the speed write sends for L (through the full response parse, for
any JSON parser) yields L again, and the reverse mapping applied to
that code is exactly L: the two tables round-trip. -/
theorem C9_speed_roundtrip (jp : String → Option Json) (L : String)
    (h : L ∈ FAN_SPEED_MAPPING.map Prod.fst) :
    fanOfPin (parsePinText jp (setFanPinValue L)) = L ∧
    FAN_SPEED_REVERSE_MAPPING.lookup (setFanPinValue L) = some L := by
  simp only [FAN_SPEED_MAPPING, List.map, List.mem_cons, List.not_mem_nil,
    or_false] at h
  rcases h with h | h | h | h | h <;> subst h <;> exact ⟨rfl, rfl⟩

/-- Closed instance of `C9_speed_roundtrip` at level "Whisper". -/
theorem C9_speed_roundtrip_witness :
    fanOfPin (parsePinText (fun _ => none) (setFanPinValue "Whisper")) = "Whisper" :=
  (C9_speed_roundtrip (fun _ => none) "Whisper" (by decide)).1

/-- C3: with the default maximum of 3 attempts, two transport failures
followed by a success make exactly 3 attempts with a 1-second sleep
between consecutive attempts (two sleeps) and return the decode of the
third response's stripped body; an HTTP response on the first attempt
is never retried (retries happen only on transport failures); three
consecutive transport failures exhaust the retries and fail with the
retry-exhausted error carrying the attempt count. -/
theorem C3_retry_then_success :
    (∀ (responses : Nat → AttemptResult) (m0 m1 body : String),
      responses 0 = .transportFailure m0 →
      responses 1 = .transportFailure m1 →
      responses 2 = .httpResponse 200 body →
      makeRequestWithRetry responses MAX_RETRIES =
        ⟨.ok (pyStrip body), 3, [1, 1]⟩) ∧
    (∀ (jp : String → Option Json) (responses : Nat → AttemptResult)
      (m0 m1 body : String),
      responses 0 = .transportFailure m0 →
      responses 1 = .transportFailure m1 →
      responses 2 = .httpResponse 200 body →
      asyncGetPinValue jp responses MAX_RETRIES =
        .ok (parsePinText jp (pyStrip body))) ∧
    (∀ (responses : Nat → AttemptResult) (status : Nat) (body : String),
      responses 0 = .httpResponse status body →
      (makeRequestWithRetry responses MAX_RETRIES).attempts = 1) ∧
    (∀ (responses : Nat → AttemptResult) (m0 m1 m2 : String),
      responses 0 = .transportFailure m0 →
      responses 1 = .transportFailure m1 →
      responses 2 = .transportFailure m2 →
      makeRequestWithRetry responses MAX_RETRIES =
        ⟨.error (.requestFailed 3 m2), 3, [1, 1]⟩) := by
  refine ⟨fun responses m0 m1 body h0 h1 h2 => ?_,
    fun jp responses m0 m1 body h0 h1 h2 => ?_,
    fun responses status body h0 => ?_,
    fun responses m0 m1 m2 h0 h1 h2 => ?_⟩
  · simp [makeRequestWithRetry, MAX_RETRIES, retryGo, h0, h1, h2]
  · simp [asyncGetPinValue, makeRequestWithRetry, MAX_RETRIES, retryGo, h0, h1, h2]
  · simp only [makeRequestWithRetry, MAX_RETRIES, retryGo, h0]
    split_ifs <;> rfl
  · simp [makeRequestWithRetry, MAX_RETRIES, retryGo, h0, h1, h2]

/-- Closed instances of `C3_retry_then_success`: the two-failures-then-
success schedule and the all-failures schedule. -/
theorem C3_retry_then_success_witness :
    makeRequestWithRetry
        (fun n => if n < 2 then .transportFailure "timeout" else .httpResponse 200 " 1 ")
        MAX_RETRIES = ⟨.ok "1", 3, [1, 1]⟩ ∧
    makeRequestWithRetry (fun _ => .transportFailure "refused") MAX_RETRIES =
      ⟨.error (.requestFailed 3 "refused"), 3, [1, 1]⟩ :=
  ⟨C3_retry_then_success.1
      (fun n => if n < 2 then .transportFailure "timeout" else .httpResponse 200 " 1 ")
      "timeout" "timeout" " 1 " rfl rfl rfl,
   C3_retry_then_success.2.2.2 (fun _ => .transportFailure "refused")
      "refused" "refused" "refused" rfl rfl rfl⟩

/-- C4: an HTTP 401 or 400 answer on the first attempt fails
immediately after exactly one attempt with no sleeps, 401 classified as
the authentication error and 400 as the malformed-request error; any
other non-200 status fails the same way with the generic error carrying
status and body; the three classifications are pairwise distinct. -/
theorem C4_http_error_classification :
    (∀ (responses : Nat → AttemptResult) (body : String),
      responses 0 = .httpResponse 401 body →
      makeRequestWithRetry responses MAX_RETRIES = ⟨.error .invalidAuth, 1, []⟩) ∧
    (∀ (responses : Nat → AttemptResult) (body : String),
      responses 0 = .httpResponse 400 body →
      makeRequestWithRetry responses MAX_RETRIES = ⟨.error .badRequest, 1, []⟩) ∧
    (∀ (responses : Nat → AttemptResult) (status : Nat) (body : String),
      responses 0 = .httpResponse status body →
      status ≠ 200 → status ≠ 401 → status ≠ 400 →
      makeRequestWithRetry responses MAX_RETRIES =
        ⟨.error (.httpStatus status body), 1, []⟩) ∧
    (BlynkError.invalidAuth ≠ .badRequest ∧
      ∀ status body, BlynkError.invalidAuth ≠ .httpStatus status body ∧
        BlynkError.badRequest ≠ .httpStatus status body) := by
  refine ⟨fun responses body h0 => ?_, fun responses body h0 => ?_,
    fun responses status body h0 hn200 hn401 hn400 => ?_,
    fun h => BlynkError.noConfusion h,
    fun status body => ⟨fun h => BlynkError.noConfusion h,
      fun h => BlynkError.noConfusion h⟩⟩
  · simp [makeRequestWithRetry, MAX_RETRIES, retryGo, h0]
  · simp [makeRequestWithRetry, MAX_RETRIES, retryGo, h0]
  · simp [makeRequestWithRetry, MAX_RETRIES, retryGo, h0, hn200, hn401, hn400]

/-- Closed instances of `C4_http_error_classification` at statuses 401,
400 and 500. -/
theorem C4_http_error_classification_witness :
    makeRequestWithRetry (fun _ => .httpResponse 401 "denied") MAX_RETRIES =
      ⟨.error .invalidAuth, 1, []⟩ ∧
    makeRequestWithRetry (fun _ => .httpResponse 400 "bad") MAX_RETRIES =
      ⟨.error .badRequest, 1, []⟩ ∧
    makeRequestWithRetry (fun _ => .httpResponse 500 "oops") MAX_RETRIES =
      ⟨.error (.httpStatus 500 "oops"), 1, []⟩ :=
  ⟨C4_http_error_classification.1 (fun _ => .httpResponse 401 "denied") "denied" rfl,
   C4_http_error_classification.2.1 (fun _ => .httpResponse 400 "bad") "bad" rfl,
   C4_http_error_classification.2.2.1 (fun _ => .httpResponse 500 "oops") 500 "oops"
     rfl (by decide) (by decide) (by decide)⟩

/-- Helper for C10: from any attempt index with at least one iteration
left (and the index consistent with the loop bound), the loop body
either returns or raises a classified error, never the fall-through
"max retries exceeded" raise. -/
theorem retryGo_result_ne_fallthrough (responses : Nat → AttemptResult)
    (retries : Nat) :
    ∀ remaining attempt, 1 ≤ remaining → attempt + remaining = retries →
      (retryGo responses retries attempt remaining).result ≠
        .error .maxRetriesExceeded := by
  intro remaining
  induction remaining with
  | zero => omega
  | succ m ih =>
      intro attempt _ hsum
      rcases hr : responses attempt with msg | ⟨status, body⟩
      · simp only [retryGo, hr]
        split
        · simp
        · rename_i hne
          have hm : 1 ≤ m := by omega
          have hsum2 : (attempt + 1) + m = retries := by omega
          simpa using ih (attempt + 1) hm hsum2
      · simp only [retryGo, hr]
        split_ifs <;> simp

/-- C10: for every retry count of at least 1, the retry loop returns
the response text or raises a classified error during its attempts, so
the final fall-through "Max retries exceeded" raise after the loop is
unreachable. -/
theorem C10_fallthrough_unreachable (responses : Nat → AttemptResult)
    (retries : Nat) (h : 1 ≤ retries) :
    (makeRequestWithRetry responses retries).result ≠
      .error .maxRetriesExceeded :=
  retryGo_result_ne_fallthrough responses retries retries 0 h (by omega)

/-- Closed instance of `C10_fallthrough_unreachable` at the default
retry count. -/
theorem C10_fallthrough_unreachable_witness :
    (makeRequestWithRetry (fun _ => .transportFailure "down") MAX_RETRIES).result ≠
      .error .maxRetriesExceeded :=
  C10_fallthrough_unreachable (fun _ => .transportFailure "down") MAX_RETRIES
    (by decide)

/-- C5: if either the power read or the speed read fails with a
classified error, the whole refresh fails as an update-failure outcome
(the classified error is wrapped, never escaping raw) and the cached
snapshot is left untouched (no partial snapshot); when both reads
succeed, the published snapshot combines exactly the two readings of
that cycle. -/
theorem C5_refresh_all_or_nothing
    (powerRead : Except BlynkError Bool) (fanRead : Except BlynkError String)
    (st : CoordinatorState) :
    (∀ e, powerRead = .error e →
      asyncUpdateData powerRead fanRead =
        .error (.updateFailed
          ("Error communicating with Windmill device: " ++ e.message)) ∧
      (coordinatorRefresh st (asyncUpdateData powerRead fanRead)).data = st.data) ∧
    (∀ p e, powerRead = .ok p → fanRead = .error e →
      asyncUpdateData powerRead fanRead =
        .error (.updateFailed
          ("Error communicating with Windmill device: " ++ e.message)) ∧
      (coordinatorRefresh st (asyncUpdateData powerRead fanRead)).data = st.data) ∧
    (∀ p f, powerRead = .ok p → fanRead = .ok f →
      asyncUpdateData powerRead fanRead = .ok ⟨p, f⟩ ∧
      coordinatorRefresh st (asyncUpdateData powerRead fanRead) =
        ⟨some ⟨p, f⟩, true⟩) := by
  refine ⟨fun e he => ?_, fun p e hp he => ?_, fun p f hp hf => ?_⟩
  · subst he; exact ⟨rfl, rfl⟩
  · subst hp; subst he; exact ⟨rfl, rfl⟩
  · subst hp; subst hf; exact ⟨rfl, rfl⟩

/-- Closed instances of `C5_refresh_all_or_nothing`: a failing power
read, a failing speed read after a successful power read, and a fully
successful cycle. -/
theorem C5_refresh_all_or_nothing_witness :
    asyncUpdateData (.error .invalidAuth) (.ok "Medium") =
      .error (.updateFailed
        "Error communicating with Windmill device: Invalid authentication token") ∧
    (coordinatorRefresh ⟨some ⟨true, "Low"⟩, true⟩
      (asyncUpdateData (.ok true) (.error (.fanFailed "boom")))).data =
      some ⟨true, "Low"⟩ ∧
    asyncUpdateData (.ok true) (.ok "High") = .ok ⟨true, "High"⟩ :=
  ⟨((C5_refresh_all_or_nothing (.error .invalidAuth) (.ok "Medium")
      ⟨none, true⟩).1 .invalidAuth rfl).1,
   ((C5_refresh_all_or_nothing (.ok true) (.error (.fanFailed "boom"))
      ⟨some ⟨true, "Low"⟩, true⟩).2.1 true (.fanFailed "boom") rfl rfl).2,
   ((C5_refresh_all_or_nothing (.ok true) (.ok "High")
      ⟨none, true⟩).2.2 true "High" rfl rfl).1⟩

/-- C6: for every coordinator state holding a prior snapshot, after a
failed refresh the cached snapshot still holds the prior values
unchanged while the last-refresh-success flag becomes false, and the
entity therefore reports unavailable. -/
theorem C6_failure_keeps_last_snapshot (st : CoordinatorState)
    (snap : Snapshot) (e : UpdateError) (h : st.data = some snap) :
    (coordinatorRefresh st (.error e)).data = some snap ∧
    (coordinatorRefresh st (.error e)).lastUpdateSuccess = false ∧
    entityAvailable (coordinatorRefresh st (.error e)) = false := by
  exact ⟨by simp [coordinatorRefresh, h], rfl, rfl⟩

/-- Closed instance of `C6_failure_keeps_last_snapshot`. -/
theorem C6_failure_keeps_last_snapshot_witness :
    (coordinatorRefresh ⟨some ⟨true, "Boost"⟩, true⟩
       (.error (.updateFailed "down"))).data = some ⟨true, "Boost"⟩ ∧
    entityAvailable (coordinatorRefresh ⟨some ⟨true, "Boost"⟩, true⟩
       (.error (.updateFailed "down"))) = false :=
  ⟨(C6_failure_keeps_last_snapshot ⟨some ⟨true, "Boost"⟩, true⟩ ⟨true, "Boost"⟩
      (.updateFailed "down") rfl).1,
   (C6_failure_keeps_last_snapshot ⟨some ⟨true, "Boost"⟩, true⟩ ⟨true, "Boost"⟩
      (.updateFailed "down") rfl).2.2⟩

/-- Helper for C8: the bookkeeping invariant of the coalescing machine:
the number of fetches ever started equals the completed ones plus one
exactly when a fetch is in flight. -/
def CoalesceState.wellFormed (st : CoalesceState) : Prop :=
  st.fetchesStarted = st.fetchesCompleted + (if st.inFlight then 1 else 0)

/-- Helper for C8: each transition preserves the bookkeeping invariant. -/
theorem coalesceStep_wellFormed (st : CoalesceState) (e : CoEvent)
    (h : st.wellFormed) : (coalesceStep st e).wellFormed := by
  rcases e with _ | o <;> simp only [coalesceStep, CoalesceState.wellFormed] at h ⊢ <;>
    split <;> simp_all

/-- Helper for C8: the invariant holds after any event sequence from a
well-formed state. -/
theorem coalesceRun_wellFormed (es : List CoEvent) :
    ∀ st : CoalesceState, st.wellFormed → (coalesceRun st es).wellFormed := by
  induction es with
  | nil => intro st h; exact h
  | cons e es ih =>
      intro st h
      exact ih (coalesceStep st e) (coalesceStep_wellFormed st e h)

/-- C8: two refresh requests issued before the first completes result
in exactly one started remote fetch, and both callers are delivered the
identical outcome; moreover, along every event sequence from the idle
initial state at most one remote fetch is ever in flight. -/
theorem C8_refresh_coalescing (o : Except UpdateError Snapshot) :
    (coalesceRun .initial [.request, .request, .complete o]).fetchesStarted = 1 ∧
    (coalesceRun .initial [.request, .request, .complete o]).delivered = [o, o] ∧
    (∀ es : List CoEvent, (coalesceRun .initial es).inFlightCount ≤ 1) := by
  refine ⟨rfl, rfl, fun es => ?_⟩
  have h := coalesceRun_wellFormed es .initial rfl
  simp only [CoalesceState.wellFormed] at h
  simp only [CoalesceState.inFlightCount, h]
  split <;> omega

/-- Closed instance of `C8_refresh_coalescing` at a successful outcome. -/
theorem C8_refresh_coalescing_witness :
    (coalesceRun .initial
      [.request, .request, .complete (.ok ⟨true, "Medium"⟩)]).delivered =
      [.ok ⟨true, "Medium"⟩, .ok ⟨true, "Medium"⟩] :=
  (C8_refresh_coalescing (.ok ⟨true, "Medium"⟩)).2.1

end WindmillFan
